import Mathlib

/-!
Verification of the GPU time-correlation and frequency-calibration core
(`rgxtimecorr.c`). The C functions are embedded as pure Lean functions:
machine integers are `Nat` with explicit reduction modulo `2 ^ 64`
(resp. `2 ^ 32`) wherever the C arithmetic can wrap, every read of an
external clock or hardware register is passed in as an explicit argument,
and the mutable device state (the DVFS table, the firmware control block
and the global clock-source selector) is threaded through explicitly.
The virtualization-role check `PVRSRV_VZ_RETN_IF_MODE(DRIVER_MODE_GUEST)`
is modelled by a boolean `bGuest` parameter.
-/

/-- Wrap-around bound of a 64-bit unsigned integer. -/
def pow64 : Nat := 2 ^ 64

/-- Wrap-around bound of a 32-bit unsigned integer. -/
def pow32 : Nat := 2 ^ 32

/-- 64-bit unsigned addition (C `+` on `IMG_UINT64`). -/
def add64 (a b : Nat) : Nat := (a + b) % pow64

/-- 64-bit unsigned subtraction (C `-` on `IMG_UINT64`); for `a, b < 2 ^ 64`
this is the usual wrap-around difference. -/
def sub64 (a b : Nat) : Nat := (a + pow64 - b) % pow64

/-- Pointwise update, modelling a write into one cell of a fixed-size C array. -/
def setAt {α : Type} (f : Nat → α) (i : Nat) (v : α) : Nat → α :=
  fun j => if j = i then v else f j

/-- Clock-source selector value `RGXTIMECORR_CLOCK_MONO`. -/
def RGXTIMECORR_CLOCK_MONO : Nat := 0

/-- Clock-source selector value `RGXTIMECORR_CLOCK_MONO_RAW`. -/
def RGXTIMECORR_CLOCK_MONO_RAW : Nat := 1

/-- Clock-source selector value `RGXTIMECORR_CLOCK_SCHED`. -/
def RGXTIMECORR_CLOCK_SCHED : Nat := 2

/-- Modelled from the spec: the clock-source enum (declared in
`rgxtimecorr.h`, which is not among the sources) has exactly the three
recognized values `mono`, `mono_raw`, `sched`; `RGXTIMECORR_CLOCK_LAST`
is the first out-of-range value. -/
def RGXTIMECORR_CLOCK_LAST : Nat := 3

/-- One snapshot of the host OS clocks at a particular read site.
`OSClockMonotonicns64` is fallible in C (it returns a `PVRSRV_ERROR` and
fills a by-reference output); `monotonicNs = none` models a failing read,
in which case the local `ui64Clock` of `RGXGPUFreqCalibrateClockns64`
stays uninitialized and holds the arbitrary value `uninitClock`. -/
structure OSClocks where
  monotonicNs : Option Nat
  monotonicRawNs : Nat
  schedNs : Nat
  uninitClock : Nat

/-- `RGXGPUFreqCalibrateClockns64` (rgxtimecorr.c:132): dispatch on the
clock-source selector. For `RGXTIMECORR_CLOCK_MONO` the C code discards
the error result of `OSClockMonotonicns64` with a `(void)` cast and
returns the output variable regardless, so a failing read yields the
uninitialized local. The `default` branch asserts and returns 0. -/
def RGXGPUFreqCalibrateClockns64 (sel : Nat) (os : OSClocks) : Nat :=
  if sel = RGXTIMECORR_CLOCK_MONO then
    match os.monotonicNs with
    | some v => v
    | none => os.uninitClock
  else if sel = RGXTIMECORR_CLOCK_MONO_RAW then os.monotonicRawNs
  else if sel = RGXTIMECORR_CLOCK_SCHED then os.schedNs
  else 0

/-- `RGXGPUFreqCalibrateClockus64` (rgxtimecorr.c:149): the nanosecond
reading integer-divided by 1000 (`OSDivide64r64`, rounding down). -/
def RGXGPUFreqCalibrateClockus64 (sel : Nat) (os : OSClocks) : Nat :=
  RGXGPUFreqCalibrateClockns64 sel os / 1000

/-- Modelled from the spec: the DVFS bucket function
`RGX_GPU_DVFS_GET_INDEX`, the three calibration thresholds
`RGX_GPU_DVFS_{FIRST,TRANSITION,PERIODIC}_CALIBRATION_TIME_US`, the ring
size behind `RGXFWIF_TIME_CORR_CURR_INDEX` and the fixed-point scale
factor `RGXFWIF_GET_CRDELTA_TO_OSDELTA_K_NS` are defined in driver
headers that are not among the sources; the spec describes them only as
a bucket function, three fixed thresholds, a ring size and a derived
scale factor, so they are kept as parameters of the embedding. -/
structure CalibConfig where
  getIndex : Nat → Nat
  firstCalibTimeUs : Nat
  transitionCalibTimeUs : Nat
  periodicCalibTimeUs : Nat
  ringSize : Nat
  scaleKNs : Nat → Nat

/-- The per-device DVFS calibration table `RGX_GPU_DVFS_TABLE` (declared
in a header; field names as used throughout rgxtimecorr.c). -/
structure RGX_GPU_DVFS_TABLE where
  aui32DVFSClock : Nat → Nat
  ui32CurrentDVFSId : Nat
  ui64CalibrationCRTimestamp : Nat
  ui64CalibrationOSTimestamp : Nat
  ui64CalibrationCRTimediff : Nat
  ui64CalibrationOSTimediff : Nat
  ui32CalibrationPeriod : Nat
  bAccumulatePeriod : Bool

/-- One correlation record `RGXFWIF_TIME_CORR`
(workload-estimation-only fields omitted: `SUPPORT_WORKLOAD_ESTIMATION`
is not defined in this build). -/
structure RGXFWIF_TIME_CORR where
  ui64CRTimeStamp : Nat
  ui64OSTimeStamp : Nat
  ui32CoreClockSpeed : Nat
  ui64CRDeltaToOSDeltaKNs : Nat

/-- The firmware control block: the ring of correlation records plus the
sequence counter that publishes the newest slot. -/
structure RGXFWIF_GPU_UTIL_FWCB where
  ui32TimeCorrSeqCount : Nat
  sTimeCorr : Nat → RGXFWIF_TIME_CORR

/-- Modelled from the spec: `RGXFWIF_TIME_CORR_CURR_INDEX` addresses the
ring slot `sequence mod ring size`. -/
def RGXFWIF_TIME_CORR_CURR_INDEX (cfg : CalibConfig) (seq : Nat) : Nat :=
  seq % cfg.ringSize

/-- `_RGXMakeTimeCorrData` (rgxtimecorr.c:155): read the hardware timer
(`crNow`) and the host clock for the current selector, build the new
record in the slot addressed by the incremented sequence count, then
publish the sequence count. The returned boolean is the `bLogToHTB` flag
that the function passes on to the `HTBSyncScale` trace sink. -/
def RGXMakeTimeCorrData (cfg : CalibConfig) (sel : Nat) (os : OSClocks)
    (crNow : Nat) (t : RGX_GPU_DVFS_TABLE) (cb : RGXFWIF_GPU_UTIL_FWCB)
    (bLogToHTB : Bool) : RGXFWIF_GPU_UTIL_FWCB × Bool :=
  let ui32CoreClockSpeed := t.aui32DVFSClock t.ui32CurrentDVFSId
  let ui32NewSeqCount := (cb.ui32TimeCorrSeqCount + 1) % pow32
  let r : RGXFWIF_TIME_CORR :=
    { ui64CRTimeStamp := crNow
      ui64OSTimeStamp := RGXGPUFreqCalibrateClockns64 sel os
      ui32CoreClockSpeed := ui32CoreClockSpeed
      ui64CRDeltaToOSDeltaKNs := cfg.scaleKNs ui32CoreClockSpeed }
  ({ ui32TimeCorrSeqCount := ui32NewSeqCount
     sTimeCorr := setAt cb.sTimeCorr (RGXFWIF_TIME_CORR_CURR_INDEX cfg ui32NewSeqCount) r },
   bLogToHTB)

/-- `_RGXGPUFreqCalibrationPeriodStart` (rgxtimecorr.c:211).
`ui32CoreClockSpeed` is the nominal speed read from
`psRGXTimingInfo->ui32CoreClockSpeed`; `crNow`/`usNow` are the hardware
timer and host microsecond readings taken at the top of the function. -/
def RGXGPUFreqCalibrationPeriodStart (cfg : CalibConfig)
    (ui32CoreClockSpeed crNow usNow : Nat) (t : RGX_GPU_DVFS_TABLE) :
    RGX_GPU_DVFS_TABLE :=
  let ui32Index := cfg.getIndex ui32CoreClockSpeed
  let t := { t with ui64CalibrationCRTimestamp := crNow
                    ui64CalibrationOSTimestamp := usNow }
  let t :=
    if t.aui32DVFSClock ui32Index = 0 ∨
       t.aui32DVFSClock ui32Index = ui32CoreClockSpeed then
      { t with aui32DVFSClock := setAt t.aui32DVFSClock ui32Index ui32CoreClockSpeed
               ui32CalibrationPeriod := cfg.firstCalibTimeUs }
    else if t.ui32CalibrationPeriod = cfg.firstCalibTimeUs then
      { t with ui32CalibrationPeriod := cfg.transitionCalibTimeUs }
    else
      { t with ui32CalibrationPeriod := cfg.periodicCalibTimeUs }
  { t with ui32CurrentDVFSId := ui32Index }

/-- `_RGXGPUFreqCalibrationPeriodStop` (rgxtimecorr.c:247): when
`bAccumulatePeriod` is unset, zero the accumulators first; then add this
window's deltas (64-bit wrap-around arithmetic). -/
def RGXGPUFreqCalibrationPeriodStop (crNow usNow : Nat)
    (t : RGX_GPU_DVFS_TABLE) : RGX_GPU_DVFS_TABLE :=
  let t := if t.bAccumulatePeriod then t
           else { t with ui64CalibrationCRTimediff := 0
                         ui64CalibrationOSTimediff := 0 }
  { t with
      ui64CalibrationCRTimediff :=
        add64 t.ui64CalibrationCRTimediff (sub64 crNow t.ui64CalibrationCRTimestamp)
      ui64CalibrationOSTimediff :=
        add64 t.ui64CalibrationOSTimediff (sub64 usNow t.ui64CalibrationOSTimestamp) }

/-- Modelled from the spec: `RGXFWIF_GET_GPU_CLOCK_FREQUENCY_HZ` derives
`calibratedHz = accumulatedTicks * 1_000_000 / accumulatedHostTimeUs`
(integer division with an explicit remainder; the macro itself is in a
header not among the sources). -/
def RGXFWIF_GET_GPU_CLOCK_FREQUENCY_HZ (crDiff osDiff : Nat) : Nat :=
  crDiff * 1000000 / osDiff

/-- `_RGXGPUFreqCalibrationCalculate` (rgxtimecorr.c:268), in the
hardware build (`NO_HARDWARE` not defined): derive the calibrated
frequency from the accumulated deltas, store it into the current DVFS
table row, reset both accumulators to zero and return it. -/
def RGXGPUFreqCalibrationCalculate (t : RGX_GPU_DVFS_TABLE) :
    Nat × RGX_GPU_DVFS_TABLE :=
  let ui32CalibratedClockSpeed :=
    RGXFWIF_GET_GPU_CLOCK_FREQUENCY_HZ t.ui64CalibrationCRTimediff
      t.ui64CalibrationOSTimediff
  (ui32CalibratedClockSpeed,
   { t with
       aui32DVFSClock :=
         setAt t.aui32DVFSClock t.ui32CurrentDVFSId ui32CalibratedClockSpeed
       ui64CalibrationCRTimediff := 0
       ui64CalibrationOSTimediff := 0 })

/-- `_RGXGPUFreqCalibratePreClockSourceChange` (rgxtimecorr.c:300): stop
the window, then calibrate if the accumulated host time already reached
the configured period. `crStop`/`usStop` are the readings taken inside
the period-stop call (the host reading still uses the old selector). -/
def RGXGPUFreqCalibratePreClockSourceChange (bGuest : Bool)
    (crStop usStop : Nat) (t : RGX_GPU_DVFS_TABLE) : RGX_GPU_DVFS_TABLE :=
  if bGuest then t
  else
    let t := RGXGPUFreqCalibrationPeriodStop crStop usStop t
    if t.ui64CalibrationOSTimediff ≥ t.ui32CalibrationPeriod then
      (RGXGPUFreqCalibrationCalculate t).2
    else t

/-- `_RGXGPUFreqCalibratePostClockSourceChange` (rgxtimecorr.c:316): set
`bAccumulatePeriod`, start a new window, write a correlation record
forwarded to the trace sink. The host readings use the new selector. -/
def RGXGPUFreqCalibratePostClockSourceChange (cfg : CalibConfig)
    (bGuest : Bool) (sel : Nat) (timingCoreClockSpeed crStart usStart crRecord : Nat)
    (osRecord : OSClocks) (t : RGX_GPU_DVFS_TABLE)
    (cb : RGXFWIF_GPU_UTIL_FWCB) :
    RGX_GPU_DVFS_TABLE × RGXFWIF_GPU_UTIL_FWCB × Option Bool :=
  if bGuest then (t, cb, none)
  else
    let t := { t with bAccumulatePeriod := true }
    let t := RGXGPUFreqCalibrationPeriodStart cfg timingCoreClockSpeed crStart usStart t
    let mk := RGXMakeTimeCorrData cfg sel osRecord crRecord t cb true
    (t, mk.1, some mk.2)

/-- Result of the `_SetClock` apphint handler: the `PVRSRV_ERROR` code,
the (possibly updated) global selector, the threaded state, and the
ordered trace of the side-effecting steps the handler performed. -/
inductive SetClockEvent
  | preChange
  | swapSelector
  | postChange
deriving DecidableEq

/-- Error codes returned by `_SetClock`. -/
inductive PVRSRV_ERROR_CODE
  | PVRSRV_OK
  | PVRSRV_ERROR_INVALID_PARAMS
deriving DecidableEq

/-- External readings consumed by `_SetClock`: the hooks read the
hardware timer three times and the host clocks at three distinct sites
(the pre-change stop under the old selector, the post-change start and
record under the new selector). -/
structure SetClockReads where
  crStop : Nat
  osStop : OSClocks
  timingCoreClockSpeed : Nat
  crStart : Nat
  osStart : OSClocks
  crRecord : Nat
  osRecord : OSClocks

/-- Aggregate result of `_SetClock`. -/
structure SetClockResult where
  err : PVRSRV_ERROR_CODE
  sel : Nat
  table : RGX_GPU_DVFS_TABLE
  fwcb : RGXFWIF_GPU_UTIL_FWCB
  trace : List SetClockEvent

/-- `_SetClock` (rgxtimecorr.c:80): reject an out-of-range selector with
`PVRSRV_ERROR_INVALID_PARAMS` touching nothing; otherwise run the
pre-change hook (still under the old selector `gSel`), swap the global
selector to `v`, run the post-change hook under the new selector, and
return `PVRSRV_OK`. -/
def SetClock (cfg : CalibConfig) (bGuest : Bool) (gSel v : Nat)
    (r : SetClockReads) (t : RGX_GPU_DVFS_TABLE)
    (cb : RGXFWIF_GPU_UTIL_FWCB) : SetClockResult :=
  if v ≥ RGXTIMECORR_CLOCK_LAST then
    { err := .PVRSRV_ERROR_INVALID_PARAMS, sel := gSel, table := t, fwcb := cb,
      trace := [] }
  else
    let t := RGXGPUFreqCalibratePreClockSourceChange bGuest r.crStop
      (RGXGPUFreqCalibrateClockus64 gSel r.osStop) t
    let sel := v
    let post := RGXGPUFreqCalibratePostClockSourceChange cfg bGuest sel
      r.timingCoreClockSpeed r.crStart
      (RGXGPUFreqCalibrateClockus64 sel r.osStart) r.crRecord r.osRecord t cb
    { err := .PVRSRV_OK, sel := sel, table := post.1, fwcb := post.2.1,
      trace := [.preChange, .swapSelector, .postChange] }

/-- Aggregate result of `RGXGPUFreqCalibratePostClockSpeedChange`:
the returned effective clock speed plus the threaded state; `htb` is
`some b` when `_RGXMakeTimeCorrData` ran with `bLogToHTB = b`. -/
structure PostCSCResult where
  speed : Nat
  table : RGX_GPU_DVFS_TABLE
  fwcb : RGXFWIF_GPU_UTIL_FWCB
  htb : Option Bool

/-- `RGXGPUFreqCalibratePostClockSpeedChange` (rgxtimecorr.c:404). In the
guest role, return the requested speed untouched. If the new speed's
bucket differs from the current DVFS id: calibrate first when the
accumulated host time reached `RGX_GPU_DVFS_TRANSITION_CALIBRATION_TIME_US`
(the calibrated value becomes the returned speed), then start a new
window, write a trace-forwarded record and clear `bAccumulatePeriod`.
Same bucket: just set `bAccumulatePeriod`. -/
def RGXGPUFreqCalibratePostClockSpeedChange (cfg : CalibConfig)
    (bGuest : Bool) (sel : Nat) (ui32NewClockSpeed : Nat)
    (timingCoreClockSpeed crStart usStart crRecord : Nat) (osRecord : OSClocks)
    (t : RGX_GPU_DVFS_TABLE) (cb : RGXFWIF_GPU_UTIL_FWCB) : PostCSCResult :=
  if bGuest then { speed := ui32NewClockSpeed, table := t, fwcb := cb, htb := none }
  else if cfg.getIndex ui32NewClockSpeed ≠ t.ui32CurrentDVFSId then
    let pr :=
      if t.ui64CalibrationOSTimediff ≥ cfg.transitionCalibTimeUs then
        RGXGPUFreqCalibrationCalculate t
      else (ui32NewClockSpeed, t)
    let t := RGXGPUFreqCalibrationPeriodStart cfg timingCoreClockSpeed crStart usStart pr.2
    let mk := RGXMakeTimeCorrData cfg sel osRecord crRecord t cb true
    { speed := pr.1, table := { t with bAccumulatePeriod := false },
      fwcb := mk.1, htb := some mk.2 }
  else
    { speed := ui32NewClockSpeed, table := { t with bAccumulatePeriod := true },
      fwcb := cb, htb := none }

/-- Device power states relevant to the periodic hook. -/
inductive PVRSRV_DEV_POWER_STATE
  | DEFAULT
  | OFF
  | ON
deriving DecidableEq

/-- External readings and lock/power responses consumed by
`RGXGPUFreqCalibrateCorrelatePeriodic`. -/
structure PeriodicReads where
  osNow : OSClocks
  bTryLockOk : Bool
  ePowerState : PVRSRV_DEV_POWER_STATE
  crStop : Nat
  osStop : OSClocks
  timingCoreClockSpeed : Nat
  crStart : Nat
  osStart : OSClocks
  crRecord : Nat
  osRecord : OSClocks

/-- Aggregate outcome of the periodic hook: whether the power lock was
acquired and released, the threaded state, and `some b` when a record
was written with `bLogToHTB = b`. -/
structure PeriodicOutcome where
  acquiredLock : Bool
  releasedLock : Bool
  table : RGX_GPU_DVFS_TABLE
  fwcb : RGXFWIF_GPU_UTIL_FWCB
  htb : Option Bool

/-- `RGXGPUFreqCalibrateCorrelatePeriodic` (rgxtimecorr.c:438): return at
once when the elapsed host time since the window opened is below the
calibration period (64-bit wrap-around subtraction, as in the C source);
then try the power lock without blocking and skip the cycle on failure;
release and skip when the device is not powered on; otherwise stop,
calculate, start, write a trace-forwarded record, release the lock. -/
def RGXGPUFreqCalibrateCorrelatePeriodic (cfg : CalibConfig) (bGuest : Bool)
    (sel : Nat) (r : PeriodicReads) (t : RGX_GPU_DVFS_TABLE)
    (cb : RGXFWIF_GPU_UTIL_FWCB) : PeriodicOutcome :=
  let ui64TimeNow := RGXGPUFreqCalibrateClockus64 sel r.osNow
  if bGuest then
    { acquiredLock := false, releasedLock := false, table := t, fwcb := cb, htb := none }
  else if sub64 ui64TimeNow t.ui64CalibrationOSTimestamp < t.ui32CalibrationPeriod then
    { acquiredLock := false, releasedLock := false, table := t, fwcb := cb, htb := none }
  else if ¬ r.bTryLockOk then
    { acquiredLock := false, releasedLock := false, table := t, fwcb := cb, htb := none }
  else if r.ePowerState ≠ PVRSRV_DEV_POWER_STATE.ON then
    { acquiredLock := true, releasedLock := true, table := t, fwcb := cb, htb := none }
  else
    let t := RGXGPUFreqCalibrationPeriodStop r.crStop
      (RGXGPUFreqCalibrateClockus64 sel r.osStop) t
    let t := (RGXGPUFreqCalibrationCalculate t).2
    let t := RGXGPUFreqCalibrationPeriodStart cfg r.timingCoreClockSpeed r.crStart
      (RGXGPUFreqCalibrateClockus64 sel r.osStart) t
    let mk := RGXMakeTimeCorrData cfg sel r.osRecord r.crRecord t cb true
    { acquiredLock := true, releasedLock := true, table := t, fwcb := mk.1,
      htb := some mk.2 }

/-! Helper lemmas -/

theorem sub64_eq_sub (a b : Nat) (hb : b ≤ a) (ha : a < pow64) :
    sub64 a b = a - b := by
  unfold sub64
  have h1 : a + pow64 - b = (a - b) + pow64 := by omega
  rw [h1, Nat.add_mod_right, Nat.mod_eq_of_lt (by omega)]

theorem add64_eq_add (a b : Nat) (h : a + b < pow64) : add64 a b = a + b := by
  unfold add64
  exact Nat.mod_eq_of_lt h

theorem periodStart_CRTimestamp (cfg : CalibConfig) (s cr us : Nat)
    (t : RGX_GPU_DVFS_TABLE) :
    (RGXGPUFreqCalibrationPeriodStart cfg s cr us t).ui64CalibrationCRTimestamp = cr := by
  simp only [RGXGPUFreqCalibrationPeriodStart]
  split <;> (try split) <;> rfl

theorem periodStart_OSTimestamp (cfg : CalibConfig) (s cr us : Nat)
    (t : RGX_GPU_DVFS_TABLE) :
    (RGXGPUFreqCalibrationPeriodStart cfg s cr us t).ui64CalibrationOSTimestamp = us := by
  simp only [RGXGPUFreqCalibrationPeriodStart]
  split <;> (try split) <;> rfl

theorem periodStart_currentId (cfg : CalibConfig) (s cr us : Nat)
    (t : RGX_GPU_DVFS_TABLE) :
    (RGXGPUFreqCalibrationPeriodStart cfg s cr us t).ui32CurrentDVFSId = cfg.getIndex s := by
  simp only [RGXGPUFreqCalibrationPeriodStart]

theorem periodStart_clock_untouched (cfg : CalibConfig) (s cr us : Nat)
    (t : RGX_GPU_DVFS_TABLE) (j : Nat) (hj : j ≠ cfg.getIndex s) :
    (RGXGPUFreqCalibrationPeriodStart cfg s cr us t).aui32DVFSClock j =
      t.aui32DVFSClock j := by
  simp only [RGXGPUFreqCalibrationPeriodStart]
  split <;> (try split) <;> simp [setAt, hj]

theorem makeTimeCorr_seq (cfg : CalibConfig) (sel : Nat) (os : OSClocks)
    (cr : Nat) (t : RGX_GPU_DVFS_TABLE) (cb : RGXFWIF_GPU_UTIL_FWCB) (b : Bool) :
    (RGXMakeTimeCorrData cfg sel os cr t cb b).1.ui32TimeCorrSeqCount =
      (cb.ui32TimeCorrSeqCount + 1) % pow32 := rfl

/-! Concrete fixtures used by the closed witnesses -/

/-- A concrete configuration for witnesses: bucket a clock speed by
dividing by `2 ^ 20`, thresholds 1000000 / 150000 / 10000 microseconds,
a 2-slot ring, and a fixed-point scale factor. -/
def cfg0 : CalibConfig :=
  { getIndex := fun f => f / 2 ^ 20
    firstCalibTimeUs := 1000000
    transitionCalibTimeUs := 150000
    periodicCalibTimeUs := 10000
    ringSize := 2
    scaleKNs := fun hz => 1000000000 * 2 ^ 20 / hz }

/-- A concrete zeroed DVFS table for witnesses. -/
def tbl0 : RGX_GPU_DVFS_TABLE :=
  { aui32DVFSClock := fun _ => 0
    ui32CurrentDVFSId := 0
    ui64CalibrationCRTimestamp := 0
    ui64CalibrationOSTimestamp := 0
    ui64CalibrationCRTimediff := 0
    ui64CalibrationOSTimediff := 0
    ui32CalibrationPeriod := 1000000
    bAccumulatePeriod := false }

/-- A concrete firmware control block for witnesses. -/
def cb0 : RGXFWIF_GPU_UTIL_FWCB :=
  { ui32TimeCorrSeqCount := 0
    sTimeCorr := fun _ =>
      { ui64CRTimeStamp := 0, ui64OSTimeStamp := 0,
        ui32CoreClockSpeed := 0, ui64CRDeltaToOSDeltaKNs := 0 } }

/-- A concrete healthy OS clock snapshot for witnesses. -/
def osOk : OSClocks :=
  { monotonicNs := some 2000000000
    monotonicRawNs := 2000000000
    schedNs := 2000000000
    uninitClock := 0 }

/-! Claim theorems -/

/-- C1: in a hardware build, `Calculate()` with accumulated ticks `T` and
accumulated host-microseconds `U` returns `T * 1_000_000 / U` rounded
down, stores that value into `knownClockHz` at `currentPointIndex`, and
leaves both accumulators zero. -/
theorem C1_calculate_spec (t : RGX_GPU_DVFS_TABLE) (T U : Nat)
    (hT : t.ui64CalibrationCRTimediff = T)
    (hU : t.ui64CalibrationOSTimediff = U) :
    (RGXGPUFreqCalibrationCalculate t).1 = T * 1000000 / U ∧
    (RGXGPUFreqCalibrationCalculate t).2.aui32DVFSClock t.ui32CurrentDVFSId =
      T * 1000000 / U ∧
    (RGXGPUFreqCalibrationCalculate t).2.ui64CalibrationCRTimediff = 0 ∧
    (RGXGPUFreqCalibrationCalculate t).2.ui64CalibrationOSTimediff = 0 := by
  subst hT hU
  simp [RGXGPUFreqCalibrationCalculate, RGXFWIF_GET_GPU_CLOCK_FREQUENCY_HZ, setAt]

/-- C1 witness: `T = 100_000_000` ticks over `U = 100_000` microseconds
calibrates to exactly `1_000_000_000` Hz. -/
theorem C1_calculate_spec_witness :
    (RGXGPUFreqCalibrationCalculate
      { tbl0 with ui64CalibrationCRTimediff := 100000000
                  ui64CalibrationOSTimediff := 100000 }).1 = 1000000000 ∧
    (RGXGPUFreqCalibrationCalculate
      { tbl0 with ui64CalibrationCRTimediff := 100000000
                  ui64CalibrationOSTimediff := 100000 }).2.aui32DVFSClock 0 =
      1000000000 ∧
    (RGXGPUFreqCalibrationCalculate
      { tbl0 with ui64CalibrationCRTimediff := 100000000
                  ui64CalibrationOSTimediff := 100000 }).2.ui64CalibrationCRTimediff = 0 ∧
    (RGXGPUFreqCalibrationCalculate
      { tbl0 with ui64CalibrationCRTimediff := 100000000
                  ui64CalibrationOSTimediff := 100000 }).2.ui64CalibrationOSTimediff = 0 := by
  have h := C1_calculate_spec
    { tbl0 with ui64CalibrationCRTimediff := 100000000
                ui64CalibrationOSTimediff := 100000 } 100000000 100000 rfl rfl
  norm_num [tbl0] at h ⊢
  exact h

/-- C4: `Start` with nominal clock speed `s` (bucket `point =
getIndex s`): when `knownClockHz[point]` is zero or equals `s`, it is
set to `s` and the calibration target becomes the first-calibration
threshold; otherwise a previous first-calibration target downgrades to
the transition threshold and anything else becomes the periodic
threshold; in all cases the window-start snapshots are taken and
`currentPointIndex` becomes `point`. -/
theorem C4_periodStart_spec (cfg : CalibConfig) (s cr us : Nat)
    (t : RGX_GPU_DVFS_TABLE) :
    (RGXGPUFreqCalibrationPeriodStart cfg s cr us t).ui64CalibrationCRTimestamp = cr ∧
    (RGXGPUFreqCalibrationPeriodStart cfg s cr us t).ui64CalibrationOSTimestamp = us ∧
    (RGXGPUFreqCalibrationPeriodStart cfg s cr us t).ui32CurrentDVFSId = cfg.getIndex s ∧
    ((t.aui32DVFSClock (cfg.getIndex s) = 0 ∨ t.aui32DVFSClock (cfg.getIndex s) = s) →
      (RGXGPUFreqCalibrationPeriodStart cfg s cr us t).aui32DVFSClock (cfg.getIndex s) = s ∧
      (RGXGPUFreqCalibrationPeriodStart cfg s cr us t).ui32CalibrationPeriod =
        cfg.firstCalibTimeUs) ∧
    (¬ (t.aui32DVFSClock (cfg.getIndex s) = 0 ∨ t.aui32DVFSClock (cfg.getIndex s) = s) →
      t.ui32CalibrationPeriod = cfg.firstCalibTimeUs →
      (RGXGPUFreqCalibrationPeriodStart cfg s cr us t).ui32CalibrationPeriod =
        cfg.transitionCalibTimeUs) ∧
    (¬ (t.aui32DVFSClock (cfg.getIndex s) = 0 ∨ t.aui32DVFSClock (cfg.getIndex s) = s) →
      t.ui32CalibrationPeriod ≠ cfg.firstCalibTimeUs →
      (RGXGPUFreqCalibrationPeriodStart cfg s cr us t).ui32CalibrationPeriod =
        cfg.periodicCalibTimeUs) := by
  refine ⟨periodStart_CRTimestamp cfg s cr us t, periodStart_OSTimestamp cfg s cr us t,
    periodStart_currentId cfg s cr us t, ?_, ?_, ?_⟩
  · intro h
    simp only [RGXGPUFreqCalibrationPeriodStart]
    split <;> simp_all [setAt]
  · intro h hfirst
    simp only [RGXGPUFreqCalibrationPeriodStart]
    split <;> simp_all
  · intro h hfirst
    simp only [RGXGPUFreqCalibrationPeriodStart]
    split <;> simp_all

/-- C4 witness: starting a fresh table (never-observed bucket) at a
concrete speed takes the first-calibration branch; starting a table that
already knows a different speed for the bucket while the target is the
first-calibration threshold downgrades it to the transition threshold. -/
theorem C4_periodStart_spec_witness :
    (RGXGPUFreqCalibrationPeriodStart cfg0 550000000 77 88 tbl0).ui64CalibrationCRTimestamp = 77 ∧
    (RGXGPUFreqCalibrationPeriodStart cfg0 550000000 77 88 tbl0).ui64CalibrationOSTimestamp = 88 ∧
    (RGXGPUFreqCalibrationPeriodStart cfg0 550000000 77 88 tbl0).ui32CurrentDVFSId = 524 ∧
    (RGXGPUFreqCalibrationPeriodStart cfg0 550000000 77 88 tbl0).aui32DVFSClock 524 = 550000000 ∧
    (RGXGPUFreqCalibrationPeriodStart cfg0 550000000 77 88 tbl0).ui32CalibrationPeriod = 1000000 := by
  have h := C4_periodStart_spec cfg0 550000000 77 88 tbl0
  have hc : tbl0.aui32DVFSClock (cfg0.getIndex 550000000) = 0 ∨
      tbl0.aui32DVFSClock (cfg0.getIndex 550000000) = 550000000 := Or.inl rfl
  obtain ⟨h1, h2, h3, h4, -, -⟩ := h
  obtain ⟨h5, h6⟩ := h4 hc
  refine ⟨h1, h2, ?_, ?_, h6⟩
  · rw [h3]; rfl
  · have : cfg0.getIndex 550000000 = 524 := by norm_num [cfg0]
    rw [← this]; exact h5

/-- C3: two consecutive `Stop` calls with no intervening `Start`: with
`accumulateAcrossTransition` set (and starting from empty accumulators)
the accumulators after the second `Stop` are the sum of the two
individual window deltas; with the flag clear the second `Stop`'s deltas
fully replace the first's. -/
theorem C3_periodStop_merge (t : RGX_GPU_DVFS_TABLE) (cr1 us1 cr2 us2 : Nat)
    (hcr1l : t.ui64CalibrationCRTimestamp ≤ cr1) (hcr1u : cr1 < pow64)
    (hcr2l : t.ui64CalibrationCRTimestamp ≤ cr2) (hcr2u : cr2 < pow64)
    (hus1l : t.ui64CalibrationOSTimestamp ≤ us1) (hus1u : us1 < pow64)
    (hus2l : t.ui64CalibrationOSTimestamp ≤ us2) (hus2u : us2 < pow64)
    (hcrsum : (cr1 - t.ui64CalibrationCRTimestamp) + (cr2 - t.ui64CalibrationCRTimestamp) < pow64)
    (hussum : (us1 - t.ui64CalibrationOSTimestamp) + (us2 - t.ui64CalibrationOSTimestamp) < pow64) :
    (t.bAccumulatePeriod = true → t.ui64CalibrationCRTimediff = 0 →
      t.ui64CalibrationOSTimediff = 0 →
      (RGXGPUFreqCalibrationPeriodStop cr2 us2
          (RGXGPUFreqCalibrationPeriodStop cr1 us1 t)).ui64CalibrationCRTimediff =
        (cr1 - t.ui64CalibrationCRTimestamp) + (cr2 - t.ui64CalibrationCRTimestamp) ∧
      (RGXGPUFreqCalibrationPeriodStop cr2 us2
          (RGXGPUFreqCalibrationPeriodStop cr1 us1 t)).ui64CalibrationOSTimediff =
        (us1 - t.ui64CalibrationOSTimestamp) + (us2 - t.ui64CalibrationOSTimestamp)) ∧
    (t.bAccumulatePeriod = false →
      (RGXGPUFreqCalibrationPeriodStop cr2 us2
          (RGXGPUFreqCalibrationPeriodStop cr1 us1 t)).ui64CalibrationCRTimediff =
        cr2 - t.ui64CalibrationCRTimestamp ∧
      (RGXGPUFreqCalibrationPeriodStop cr2 us2
          (RGXGPUFreqCalibrationPeriodStop cr1 us1 t)).ui64CalibrationOSTimediff =
        us2 - t.ui64CalibrationOSTimestamp) := by
  constructor
  · intro hacc hcr0 hos0
    simp only [RGXGPUFreqCalibrationPeriodStop, hacc, if_true]
    rw [hcr0, hos0]
    rw [sub64_eq_sub cr1 t.ui64CalibrationCRTimestamp hcr1l hcr1u,
        sub64_eq_sub us1 t.ui64CalibrationOSTimestamp hus1l hus1u,
        sub64_eq_sub cr2 t.ui64CalibrationCRTimestamp hcr2l hcr2u,
        sub64_eq_sub us2 t.ui64CalibrationOSTimestamp hus2l hus2u]
    rw [add64_eq_add 0 _ (by omega), add64_eq_add 0 _ (by omega)]
    simp only [Nat.zero_add]
    exact ⟨add64_eq_add _ _ hcrsum, add64_eq_add _ _ hussum⟩
  · intro hacc
    simp only [RGXGPUFreqCalibrationPeriodStop, hacc]
    simp only [Bool.false_eq_true, if_false]
    rw [sub64_eq_sub cr2 t.ui64CalibrationCRTimestamp hcr2l hcr2u,
        sub64_eq_sub us2 t.ui64CalibrationOSTimestamp hus2l hus2u]
    rw [add64_eq_add 0 _ (by omega), add64_eq_add 0 _ (by omega)]
    simp

/-- C3 witness: with the flag set and window start at 100/200, stops at
(150, 260) then (180, 300) accumulate (50 + 80, 60 + 100); with the flag
clear the second stop leaves exactly (80, 100). -/
theorem C3_periodStop_merge_witness :
    (RGXGPUFreqCalibrationPeriodStop 180 300
        (RGXGPUFreqCalibrationPeriodStop 150 260
          { tbl0 with ui64CalibrationCRTimestamp := 100
                      ui64CalibrationOSTimestamp := 200
                      bAccumulatePeriod := true })).ui64CalibrationCRTimediff = 130 ∧
    (RGXGPUFreqCalibrationPeriodStop 180 300
        (RGXGPUFreqCalibrationPeriodStop 150 260
          { tbl0 with ui64CalibrationCRTimestamp := 100
                      ui64CalibrationOSTimestamp := 200
                      bAccumulatePeriod := true })).ui64CalibrationOSTimediff = 160 ∧
    (RGXGPUFreqCalibrationPeriodStop 180 300
        (RGXGPUFreqCalibrationPeriodStop 150 260
          { tbl0 with ui64CalibrationCRTimestamp := 100
                      ui64CalibrationOSTimestamp := 200 })).ui64CalibrationCRTimediff = 80 ∧
    (RGXGPUFreqCalibrationPeriodStop 180 300
        (RGXGPUFreqCalibrationPeriodStop 150 260
          { tbl0 with ui64CalibrationCRTimestamp := 100
                      ui64CalibrationOSTimestamp := 200 })).ui64CalibrationOSTimediff = 100 := by
  have h1 := C3_periodStop_merge
    { tbl0 with ui64CalibrationCRTimestamp := 100, ui64CalibrationOSTimestamp := 200,
                bAccumulatePeriod := true } 150 260 180 300
    (by norm_num [tbl0]) (by norm_num [pow64]) (by norm_num [tbl0]) (by norm_num [pow64])
    (by norm_num [tbl0]) (by norm_num [pow64]) (by norm_num [tbl0]) (by norm_num [pow64])
    (by norm_num [tbl0, pow64]) (by norm_num [tbl0, pow64])
  have h2 := C3_periodStop_merge
    { tbl0 with ui64CalibrationCRTimestamp := 100, ui64CalibrationOSTimestamp := 200 } 150 260 180 300
    (by norm_num [tbl0]) (by norm_num [pow64]) (by norm_num [tbl0]) (by norm_num [pow64])
    (by norm_num [tbl0]) (by norm_num [pow64]) (by norm_num [tbl0]) (by norm_num [pow64])
    (by norm_num [tbl0, pow64]) (by norm_num [tbl0, pow64])
  obtain ⟨ha, -⟩ := h1
  obtain ⟨-, hb⟩ := h2
  obtain ⟨ha1, ha2⟩ := ha rfl rfl rfl
  obtain ⟨hb1, hb2⟩ := hb rfl
  norm_num [tbl0] at ha1 ha2 hb1 hb2
  exact ⟨ha1, ha2, hb1, hb2⟩

theorem makeTimeCorr_htb (cfg : CalibConfig) (sel : Nat) (os : OSClocks)
    (cr : Nat) (t : RGX_GPU_DVFS_TABLE) (cb : RGXFWIF_GPU_UTIL_FWCB) (b : Bool) :
    (RGXMakeTimeCorrData cfg sel os cr t cb b).2 = b := rfl

/-- C2: `PostClockSpeedChange(newSpeed)` outside the guest role: a
same-bucket transition returns `newSpeed` unchanged, sets
`accumulateAcrossTransition` and changes nothing else; a different-bucket
transition whose prior window reached the transition threshold returns
the freshly calibrated speed from `Calculate`, starts a new window,
writes a trace-forwarded correlation record and clears
`accumulateAcrossTransition`. -/
theorem C2_postClockSpeedChange_spec (cfg : CalibConfig)
    (sel newSpeed timing crS usS crR : Nat) (osR : OSClocks)
    (t : RGX_GPU_DVFS_TABLE) (cb : RGXFWIF_GPU_UTIL_FWCB) :
    (cfg.getIndex newSpeed = t.ui32CurrentDVFSId →
      RGXGPUFreqCalibratePostClockSpeedChange cfg false sel newSpeed timing crS usS crR osR t cb =
        { speed := newSpeed, table := { t with bAccumulatePeriod := true },
          fwcb := cb, htb := none }) ∧
    (cfg.getIndex newSpeed ≠ t.ui32CurrentDVFSId →
      cfg.transitionCalibTimeUs ≤ t.ui64CalibrationOSTimediff →
      (RGXGPUFreqCalibratePostClockSpeedChange cfg false sel newSpeed timing crS usS crR osR t cb).speed =
        (RGXGPUFreqCalibrationCalculate t).1 ∧
      (RGXGPUFreqCalibratePostClockSpeedChange cfg false sel newSpeed timing crS usS crR osR t cb).table.ui64CalibrationCRTimestamp = crS ∧
      (RGXGPUFreqCalibratePostClockSpeedChange cfg false sel newSpeed timing crS usS crR osR t cb).table.ui64CalibrationOSTimestamp = usS ∧
      (RGXGPUFreqCalibratePostClockSpeedChange cfg false sel newSpeed timing crS usS crR osR t cb).table.bAccumulatePeriod = false ∧
      (RGXGPUFreqCalibratePostClockSpeedChange cfg false sel newSpeed timing crS usS crR osR t cb).fwcb.ui32TimeCorrSeqCount =
        (cb.ui32TimeCorrSeqCount + 1) % pow32 ∧
      (RGXGPUFreqCalibratePostClockSpeedChange cfg false sel newSpeed timing crS usS crR osR t cb).htb = some true) := by
  constructor
  · intro h
    simp [RGXGPUFreqCalibratePostClockSpeedChange, h]
  · intro h hge
    simp [RGXGPUFreqCalibratePostClockSpeedChange, h, hge,
          periodStart_CRTimestamp, periodStart_OSTimestamp,
          makeTimeCorr_seq, makeTimeCorr_htb]

/-- C2 witness: with bucket = speed / 2^20, requesting 550000000 Hz from
bucket 524 is a same-bucket no-op returning 550000000; requesting it
from bucket 100 with 100000000 accumulated ticks over 200000 us (above
the 150000 us transition threshold) returns the calibrated 500000000 Hz,
snapshots the new window at (7, 8), advances the sequence counter and
forwards the record to trace. -/
theorem C2_postClockSpeedChange_spec_witness :
    RGXGPUFreqCalibratePostClockSpeedChange cfg0 false 0 550000000 550000000 7 8 9 osOk
        { tbl0 with ui32CurrentDVFSId := 524 } cb0 =
      { speed := 550000000,
        table := { tbl0 with ui32CurrentDVFSId := 524, bAccumulatePeriod := true },
        fwcb := cb0, htb := none } ∧
    (RGXGPUFreqCalibratePostClockSpeedChange cfg0 false 0 550000000 550000000 7 8 9 osOk
        { tbl0 with ui32CurrentDVFSId := 100
                    ui64CalibrationCRTimediff := 100000000
                    ui64CalibrationOSTimediff := 200000 } cb0).speed = 500000000 ∧
    (RGXGPUFreqCalibratePostClockSpeedChange cfg0 false 0 550000000 550000000 7 8 9 osOk
        { tbl0 with ui32CurrentDVFSId := 100
                    ui64CalibrationCRTimediff := 100000000
                    ui64CalibrationOSTimediff := 200000 } cb0).table.ui64CalibrationCRTimestamp = 7 ∧
    (RGXGPUFreqCalibratePostClockSpeedChange cfg0 false 0 550000000 550000000 7 8 9 osOk
        { tbl0 with ui32CurrentDVFSId := 100
                    ui64CalibrationCRTimediff := 100000000
                    ui64CalibrationOSTimediff := 200000 } cb0).table.ui64CalibrationOSTimestamp = 8 ∧
    (RGXGPUFreqCalibratePostClockSpeedChange cfg0 false 0 550000000 550000000 7 8 9 osOk
        { tbl0 with ui32CurrentDVFSId := 100
                    ui64CalibrationCRTimediff := 100000000
                    ui64CalibrationOSTimediff := 200000 } cb0).table.bAccumulatePeriod = false ∧
    (RGXGPUFreqCalibratePostClockSpeedChange cfg0 false 0 550000000 550000000 7 8 9 osOk
        { tbl0 with ui32CurrentDVFSId := 100
                    ui64CalibrationCRTimediff := 100000000
                    ui64CalibrationOSTimediff := 200000 } cb0).fwcb.ui32TimeCorrSeqCount = 1 ∧
    (RGXGPUFreqCalibratePostClockSpeedChange cfg0 false 0 550000000 550000000 7 8 9 osOk
        { tbl0 with ui32CurrentDVFSId := 100
                    ui64CalibrationCRTimediff := 100000000
                    ui64CalibrationOSTimediff := 200000 } cb0).htb = some true := by
  have hsame := (C2_postClockSpeedChange_spec cfg0 0 550000000 550000000 7 8 9 osOk
      { tbl0 with ui32CurrentDVFSId := 524 } cb0).1 (by decide)
  have hdiff := (C2_postClockSpeedChange_spec cfg0 0 550000000 550000000 7 8 9 osOk
      { tbl0 with ui32CurrentDVFSId := 100
                  ui64CalibrationCRTimediff := 100000000
                  ui64CalibrationOSTimediff := 200000 } cb0).2 (by decide) (by decide)
  obtain ⟨h1, h2, h3, h4, h5, h6⟩ := hdiff
  refine ⟨hsame, ?_, h2, h3, h4, ?_, h6⟩
  · rw [h1]
    norm_num [RGXGPUFreqCalibrationCalculate, RGXFWIF_GET_GPU_CLOCK_FREQUENCY_HZ, tbl0]
  · rw [h5]
    norm_num [cb0, pow32]

/-- C10: `PostClockSpeedChange(newSpeed)` outside the guest role, with
`newSpeed` in a different bucket but the accumulated host time below the
transition threshold: returns `newSpeed` unchanged, leaves the old
bucket's `knownClockHz` untouched (no `Calculate` runs), yet still
starts a new window for the new bucket, writes a trace-forwarded record
and clears `accumulateAcrossTransition`. The hypothesis `htiming`
expresses the caller contract that the timing-info speed read by the
window start maps to the same bucket as the requested speed. -/
theorem C10_postClockSpeedChange_below_threshold (cfg : CalibConfig)
    (sel newSpeed timing crS usS crR : Nat) (osR : OSClocks)
    (t : RGX_GPU_DVFS_TABLE) (cb : RGXFWIF_GPU_UTIL_FWCB)
    (hne : cfg.getIndex newSpeed ≠ t.ui32CurrentDVFSId)
    (hlt : t.ui64CalibrationOSTimediff < cfg.transitionCalibTimeUs)
    (htiming : cfg.getIndex timing = cfg.getIndex newSpeed) :
    (RGXGPUFreqCalibratePostClockSpeedChange cfg false sel newSpeed timing crS usS crR osR t cb).speed = newSpeed ∧
    (RGXGPUFreqCalibratePostClockSpeedChange cfg false sel newSpeed timing crS usS crR osR t cb).table.aui32DVFSClock t.ui32CurrentDVFSId =
      t.aui32DVFSClock t.ui32CurrentDVFSId ∧
    (RGXGPUFreqCalibratePostClockSpeedChange cfg false sel newSpeed timing crS usS crR osR t cb).table.ui64CalibrationCRTimestamp = crS ∧
    (RGXGPUFreqCalibratePostClockSpeedChange cfg false sel newSpeed timing crS usS crR osR t cb).table.ui64CalibrationOSTimestamp = usS ∧
    (RGXGPUFreqCalibratePostClockSpeedChange cfg false sel newSpeed timing crS usS crR osR t cb).table.ui32CurrentDVFSId = cfg.getIndex newSpeed ∧
    (RGXGPUFreqCalibratePostClockSpeedChange cfg false sel newSpeed timing crS usS crR osR t cb).fwcb.ui32TimeCorrSeqCount =
      (cb.ui32TimeCorrSeqCount + 1) % pow32 ∧
    (RGXGPUFreqCalibratePostClockSpeedChange cfg false sel newSpeed timing crS usS crR osR t cb).htb = some true ∧
    (RGXGPUFreqCalibratePostClockSpeedChange cfg false sel newSpeed timing crS usS crR osR t cb).table.bAccumulatePeriod = false := by
  have hnl : ¬ (t.ui64CalibrationOSTimediff ≥ cfg.transitionCalibTimeUs) := by omega
  have hcl : t.ui32CurrentDVFSId ≠ cfg.getIndex timing := by
    rw [htiming]; exact Ne.symm hne
  simp [RGXGPUFreqCalibratePostClockSpeedChange, hne, hnl,
        periodStart_CRTimestamp, periodStart_OSTimestamp, periodStart_currentId,
        periodStart_clock_untouched cfg timing crS usS t t.ui32CurrentDVFSId hcl,
        makeTimeCorr_seq, makeTimeCorr_htb, htiming]

/-- C10 witness: requesting 550000000 Hz (bucket 524) from bucket 100
with only 100000 us accumulated (below the 150000 us threshold) returns
the requested speed, preserves the old bucket entry, starts the window
at (7, 8) on bucket 524, advances the sequence counter, forwards the
record and clears the accumulate flag. -/
theorem C10_postClockSpeedChange_below_threshold_witness :
    (RGXGPUFreqCalibratePostClockSpeedChange cfg0 false 0 550000000 550000000 7 8 9 osOk
        { tbl0 with aui32DVFSClock := setAt tbl0.aui32DVFSClock 100 300000000
                    ui32CurrentDVFSId := 100
                    ui64CalibrationCRTimediff := 100000000
                    ui64CalibrationOSTimediff := 100000 } cb0).speed = 550000000 ∧
    (RGXGPUFreqCalibratePostClockSpeedChange cfg0 false 0 550000000 550000000 7 8 9 osOk
        { tbl0 with aui32DVFSClock := setAt tbl0.aui32DVFSClock 100 300000000
                    ui32CurrentDVFSId := 100
                    ui64CalibrationCRTimediff := 100000000
                    ui64CalibrationOSTimediff := 100000 } cb0).table.aui32DVFSClock 100 = 300000000 ∧
    (RGXGPUFreqCalibratePostClockSpeedChange cfg0 false 0 550000000 550000000 7 8 9 osOk
        { tbl0 with aui32DVFSClock := setAt tbl0.aui32DVFSClock 100 300000000
                    ui32CurrentDVFSId := 100
                    ui64CalibrationCRTimediff := 100000000
                    ui64CalibrationOSTimediff := 100000 } cb0).table.ui32CurrentDVFSId = 524 ∧
    (RGXGPUFreqCalibratePostClockSpeedChange cfg0 false 0 550000000 550000000 7 8 9 osOk
        { tbl0 with aui32DVFSClock := setAt tbl0.aui32DVFSClock 100 300000000
                    ui32CurrentDVFSId := 100
                    ui64CalibrationCRTimediff := 100000000
                    ui64CalibrationOSTimediff := 100000 } cb0).fwcb.ui32TimeCorrSeqCount = 1 ∧
    (RGXGPUFreqCalibratePostClockSpeedChange cfg0 false 0 550000000 550000000 7 8 9 osOk
        { tbl0 with aui32DVFSClock := setAt tbl0.aui32DVFSClock 100 300000000
                    ui32CurrentDVFSId := 100
                    ui64CalibrationCRTimediff := 100000000
                    ui64CalibrationOSTimediff := 100000 } cb0).htb = some true ∧
    (RGXGPUFreqCalibratePostClockSpeedChange cfg0 false 0 550000000 550000000 7 8 9 osOk
        { tbl0 with aui32DVFSClock := setAt tbl0.aui32DVFSClock 100 300000000
                    ui32CurrentDVFSId := 100
                    ui64CalibrationCRTimediff := 100000000
                    ui64CalibrationOSTimediff := 100000 } cb0).table.bAccumulatePeriod = false := by
  have h := C10_postClockSpeedChange_below_threshold cfg0 0 550000000 550000000 7 8 9 osOk
    { tbl0 with aui32DVFSClock := setAt tbl0.aui32DVFSClock 100 300000000
                ui32CurrentDVFSId := 100
                ui64CalibrationCRTimediff := 100000000
                ui64CalibrationOSTimediff := 100000 } cb0
    (by decide) (by decide) rfl
  obtain ⟨h1, h2, -, -, h5, h6, h7, h8⟩ := h
  refine ⟨h1, ?_, ?_, ?_, h7, h8⟩
  · rw [h2]; simp [setAt, tbl0]
  · rw [h5]; decide
  · rw [h6]; norm_num [cb0, pow32]

/-- Concrete reads fixture for `SetClock` witnesses. -/
def reads0 : SetClockReads :=
  { crStop := 10, osStop := osOk, timingCoreClockSpeed := 550000000,
    crStart := 20, osStart := osOk, crRecord := 30, osRecord := osOk }

/-- C6: `_SetClock` with a selector value outside `{mono, mono_raw,
sched}` returns `PVRSRV_ERROR_INVALID_PARAMS`, keeps the stored selector,
runs neither the pre-change nor the post-change calibration hook (the
step trace is empty) and mutates no other state. -/
theorem C6_setClock_invalid (cfg : CalibConfig) (bGuest : Bool) (gSel v : Nat)
    (r : SetClockReads) (t : RGX_GPU_DVFS_TABLE) (cb : RGXFWIF_GPU_UTIL_FWCB)
    (hv : v ≥ RGXTIMECORR_CLOCK_LAST) :
    (SetClock cfg bGuest gSel v r t cb).err = .PVRSRV_ERROR_INVALID_PARAMS ∧
    (SetClock cfg bGuest gSel v r t cb).sel = gSel ∧
    (SetClock cfg bGuest gSel v r t cb).table = t ∧
    (SetClock cfg bGuest gSel v r t cb).fwcb = cb ∧
    (SetClock cfg bGuest gSel v r t cb).trace = [] := by
  simp [SetClock, hv]

/-- C6 witness: selector value 3 (the first out-of-range value) is
rejected with no state change and no hook run. -/
theorem C6_setClock_invalid_witness :
    (SetClock cfg0 false 0 3 reads0 tbl0 cb0).err = .PVRSRV_ERROR_INVALID_PARAMS ∧
    (SetClock cfg0 false 0 3 reads0 tbl0 cb0).sel = 0 ∧
    (SetClock cfg0 false 0 3 reads0 tbl0 cb0).table = tbl0 ∧
    (SetClock cfg0 false 0 3 reads0 tbl0 cb0).fwcb = cb0 ∧
    (SetClock cfg0 false 0 3 reads0 tbl0 cb0).trace = [] :=
  C6_setClock_invalid cfg0 false 0 3 reads0 tbl0 cb0 (by decide)

/-- C8: a successful `_SetClock` call performs exactly the step sequence
pre-change hook, selector swap, post-change hook, in that order: the
step trace is `[preChange, swapSelector, postChange]`, the stored
selector becomes the new value, and the final state is the post-change
hook (running under the new selector) applied to the result of the
pre-change hook (which ran under the old selector's clock). -/
theorem C8_setClock_hook_order (cfg : CalibConfig) (bGuest : Bool) (gSel v : Nat)
    (r : SetClockReads) (t : RGX_GPU_DVFS_TABLE) (cb : RGXFWIF_GPU_UTIL_FWCB)
    (hv : v < RGXTIMECORR_CLOCK_LAST) :
    (SetClock cfg bGuest gSel v r t cb).err = .PVRSRV_OK ∧
    (SetClock cfg bGuest gSel v r t cb).sel = v ∧
    (SetClock cfg bGuest gSel v r t cb).trace =
      [.preChange, .swapSelector, .postChange] ∧
    (SetClock cfg bGuest gSel v r t cb).table =
      (RGXGPUFreqCalibratePostClockSourceChange cfg bGuest v r.timingCoreClockSpeed
        r.crStart (RGXGPUFreqCalibrateClockus64 v r.osStart) r.crRecord r.osRecord
        (RGXGPUFreqCalibratePreClockSourceChange bGuest r.crStop
          (RGXGPUFreqCalibrateClockus64 gSel r.osStop) t) cb).1 ∧
    (SetClock cfg bGuest gSel v r t cb).fwcb =
      (RGXGPUFreqCalibratePostClockSourceChange cfg bGuest v r.timingCoreClockSpeed
        r.crStart (RGXGPUFreqCalibrateClockus64 v r.osStart) r.crRecord r.osRecord
        (RGXGPUFreqCalibratePreClockSourceChange bGuest r.crStop
          (RGXGPUFreqCalibrateClockus64 gSel r.osStop) t) cb).2.1 := by
  have hnv : ¬ (v ≥ RGXTIMECORR_CLOCK_LAST) := by omega
  simp [SetClock, hnv]

/-- C8 witness: switching the selector from `mono` to `mono_raw`
succeeds with the trace pre-change, swap, post-change. -/
theorem C8_setClock_hook_order_witness :
    (SetClock cfg0 false 0 1 reads0 tbl0 cb0).err = .PVRSRV_OK ∧
    (SetClock cfg0 false 0 1 reads0 tbl0 cb0).sel = 1 ∧
    (SetClock cfg0 false 0 1 reads0 tbl0 cb0).trace =
      [.preChange, .swapSelector, .postChange] := by
  obtain ⟨h1, h2, h3, -, -⟩ :=
    C8_setClock_hook_order cfg0 false 0 1 reads0 tbl0 cb0 (by decide)
  exact ⟨h1, h2, h3⟩

/-- C7: the periodic hook outside the guest role: below the calibration
target it returns without acquiring the lock or writing a record; at or
above the target with the non-blocking lock acquire failing it does
nothing; with the lock acquired but the device not powered on it
releases the lock and returns without stopping, calculating, starting
or writing a record. -/
theorem C7_correlatePeriodic_noop (cfg : CalibConfig) (sel : Nat)
    (r : PeriodicReads) (t : RGX_GPU_DVFS_TABLE) (cb : RGXFWIF_GPU_UTIL_FWCB)
    (hts : t.ui64CalibrationOSTimestamp ≤ RGXGPUFreqCalibrateClockus64 sel r.osNow)
    (hb : RGXGPUFreqCalibrateClockus64 sel r.osNow < pow64) :
    (RGXGPUFreqCalibrateClockus64 sel r.osNow - t.ui64CalibrationOSTimestamp <
        t.ui32CalibrationPeriod →
      RGXGPUFreqCalibrateCorrelatePeriodic cfg false sel r t cb =
        { acquiredLock := false, releasedLock := false, table := t, fwcb := cb,
          htb := none }) ∧
    (t.ui32CalibrationPeriod ≤
        RGXGPUFreqCalibrateClockus64 sel r.osNow - t.ui64CalibrationOSTimestamp →
      r.bTryLockOk = false →
      RGXGPUFreqCalibrateCorrelatePeriodic cfg false sel r t cb =
        { acquiredLock := false, releasedLock := false, table := t, fwcb := cb,
          htb := none }) ∧
    (t.ui32CalibrationPeriod ≤
        RGXGPUFreqCalibrateClockus64 sel r.osNow - t.ui64CalibrationOSTimestamp →
      r.bTryLockOk = true →
      r.ePowerState ≠ PVRSRV_DEV_POWER_STATE.ON →
      RGXGPUFreqCalibrateCorrelatePeriodic cfg false sel r t cb =
        { acquiredLock := true, releasedLock := true, table := t, fwcb := cb,
          htb := none }) := by
  have hsub : sub64 (RGXGPUFreqCalibrateClockus64 sel r.osNow)
      t.ui64CalibrationOSTimestamp =
      RGXGPUFreqCalibrateClockus64 sel r.osNow - t.ui64CalibrationOSTimestamp :=
    sub64_eq_sub _ _ hts hb
  refine ⟨?_, ?_, ?_⟩
  · intro hlt
    simp [RGXGPUFreqCalibrateCorrelatePeriodic, hsub, hlt]
  · intro hge hlock
    have hnlt : ¬ (RGXGPUFreqCalibrateClockus64 sel r.osNow -
        t.ui64CalibrationOSTimestamp < t.ui32CalibrationPeriod) := by omega
    simp [RGXGPUFreqCalibrateCorrelatePeriodic, hsub, hnlt, hlock]
  · intro hge hlock hpow
    have hnlt : ¬ (RGXGPUFreqCalibrateClockus64 sel r.osNow -
        t.ui64CalibrationOSTimestamp < t.ui32CalibrationPeriod) := by omega
    simp [RGXGPUFreqCalibrateCorrelatePeriodic, hsub, hnlt, hlock, hpow]

/-- Periodic-reads fixture: lock acquire fails. -/
def preadsLockBusy : PeriodicReads :=
  { osNow := osOk, bTryLockOk := false, ePowerState := .ON,
    crStop := 0, osStop := osOk, timingCoreClockSpeed := 550000000,
    crStart := 0, osStart := osOk, crRecord := 0, osRecord := osOk }

/-- Periodic-reads fixture: lock acquired but device powered off. -/
def preadsPowerOff : PeriodicReads :=
  { osNow := osOk, bTryLockOk := true, ePowerState := .OFF,
    crStop := 0, osStop := osOk, timingCoreClockSpeed := 550000000,
    crStart := 0, osStart := osOk, crRecord := 0, osRecord := osOk }

/-- C7 witness: with the window opened at 1000 us and now = 2000000 us,
a 10000000 us target makes the hook a pure no-op; with a 1000000 us
target met, a busy lock skips the cycle, and a dead power state releases
the acquired lock and changes nothing. -/
theorem C7_correlatePeriodic_noop_witness :
    RGXGPUFreqCalibrateCorrelatePeriodic cfg0 false 0 preadsLockBusy
        { tbl0 with ui64CalibrationOSTimestamp := 1000
                    ui32CalibrationPeriod := 10000000 } cb0 =
      { acquiredLock := false, releasedLock := false,
        table := { tbl0 with ui64CalibrationOSTimestamp := 1000
                             ui32CalibrationPeriod := 10000000 },
        fwcb := cb0, htb := none } ∧
    RGXGPUFreqCalibrateCorrelatePeriodic cfg0 false 0 preadsLockBusy
        { tbl0 with ui64CalibrationOSTimestamp := 1000 } cb0 =
      { acquiredLock := false, releasedLock := false,
        table := { tbl0 with ui64CalibrationOSTimestamp := 1000 },
        fwcb := cb0, htb := none } ∧
    RGXGPUFreqCalibrateCorrelatePeriodic cfg0 false 0 preadsPowerOff
        { tbl0 with ui64CalibrationOSTimestamp := 1000 } cb0 =
      { acquiredLock := true, releasedLock := true,
        table := { tbl0 with ui64CalibrationOSTimestamp := 1000 },
        fwcb := cb0, htb := none } := by
  have hA := (C7_correlatePeriodic_noop cfg0 0 preadsLockBusy
    { tbl0 with ui64CalibrationOSTimestamp := 1000, ui32CalibrationPeriod := 10000000 }
    cb0 (by decide) (by decide)).1 (by decide)
  have hB := (C7_correlatePeriodic_noop cfg0 0 preadsLockBusy
    { tbl0 with ui64CalibrationOSTimestamp := 1000 } cb0 (by decide) (by decide)).2.1
    (by decide) rfl
  have hC := (C7_correlatePeriodic_noop cfg0 0 preadsPowerOff
    { tbl0 with ui64CalibrationOSTimestamp := 1000 } cb0 (by decide) (by decide)).2.2
    (by decide) rfl (by decide)
  exact ⟨hA, hB, hC⟩

/-- OS clock fixture whose monotonic read fails (the uninitialized local
happens to hold 12345). -/
def osFail : OSClocks :=
  { monotonicNs := none, monotonicRawNs := 0, schedNs := 0, uninitClock := 12345 }

/-- C5 counterexample: with the `mono` clock source selected and its
host clock read failing, `_RGXMakeTimeCorrData` still advances the
sequence counter (from 0 to 1), i.e. a correlation record is produced —
refuting the claim that a failed host clock read suppresses the record
and leaves the sequence counter unchanged. -/
theorem C5_counterexample :
    osFail.monotonicNs = none ∧
    (RGXMakeTimeCorrData cfg0 RGXTIMECORR_CLOCK_MONO osFail 5 tbl0 cb0 true).1.ui32TimeCorrSeqCount = 1 ∧
    (RGXMakeTimeCorrData cfg0 RGXTIMECORR_CLOCK_MONO osFail 5 tbl0 cb0 true).1.ui32TimeCorrSeqCount ≠
      cb0.ui32TimeCorrSeqCount := by
  refine ⟨rfl, ?_, ?_⟩ <;> decide

/-- C5 amended: when the host clock read for the selected `mono` source
fails, the failure is discarded (the C code casts the error to `void`):
the timestamp accessor returns the uninitialized local, and the
record-write path still writes a complete record carrying that
unspecified timestamp and advances the sequence counter. -/
theorem C5_clock_failure_record_still_written (cfg : CalibConfig)
    (os : OSClocks) (crNow : Nat) (t : RGX_GPU_DVFS_TABLE)
    (cb : RGXFWIF_GPU_UTIL_FWCB) (b : Bool) (hfail : os.monotonicNs = none) :
    RGXGPUFreqCalibrateClockns64 RGXTIMECORR_CLOCK_MONO os = os.uninitClock ∧
    (RGXMakeTimeCorrData cfg RGXTIMECORR_CLOCK_MONO os crNow t cb b).1.ui32TimeCorrSeqCount =
      (cb.ui32TimeCorrSeqCount + 1) % pow32 ∧
    (RGXMakeTimeCorrData cfg RGXTIMECORR_CLOCK_MONO os crNow t cb b).1.sTimeCorr
        (RGXFWIF_TIME_CORR_CURR_INDEX cfg ((cb.ui32TimeCorrSeqCount + 1) % pow32)) =
      { ui64CRTimeStamp := crNow
        ui64OSTimeStamp := os.uninitClock
        ui32CoreClockSpeed := t.aui32DVFSClock t.ui32CurrentDVFSId
        ui64CRDeltaToOSDeltaKNs := cfg.scaleKNs (t.aui32DVFSClock t.ui32CurrentDVFSId) } := by
  refine ⟨by simp [RGXGPUFreqCalibrateClockns64, hfail], rfl, ?_⟩
  simp [RGXMakeTimeCorrData, RGXGPUFreqCalibrateClockns64, hfail, setAt]

/-- C5 amended witness: at the concrete failing snapshot `osFail` the
record stored in slot 1 carries the uninitialized value 12345 as its OS
timestamp, and the sequence counter advanced to 1. -/
theorem C5_clock_failure_record_still_written_witness :
    RGXGPUFreqCalibrateClockns64 RGXTIMECORR_CLOCK_MONO osFail = 12345 ∧
    (RGXMakeTimeCorrData cfg0 RGXTIMECORR_CLOCK_MONO osFail 5 tbl0 cb0 true).1.ui32TimeCorrSeqCount = 1 ∧
    (RGXMakeTimeCorrData cfg0 RGXTIMECORR_CLOCK_MONO osFail 5 tbl0 cb0 true).1.sTimeCorr 1 =
      { ui64CRTimeStamp := 5, ui64OSTimeStamp := 12345,
        ui32CoreClockSpeed := 0, ui64CRDeltaToOSDeltaKNs := cfg0.scaleKNs 0 } := by
  obtain ⟨h1, h2, h3⟩ :=
    C5_clock_failure_record_still_written cfg0 osFail 5 tbl0 cb0 true rfl
  refine ⟨h1, by rw [h2]; decide, ?_⟩
  have hidx : RGXFWIF_TIME_CORR_CURR_INDEX cfg0 ((cb0.ui32TimeCorrSeqCount + 1) % pow32) = 1 := by
    decide
  rw [← hidx]
  exact h3
